import Mathlib

/-!
Verification development for the Feast Italy price-drop monitor.

Shallow embedding of the repository's core workflow code:
* `src/scraper.py`   — Shopify document parsing (`fetch_price`,
  `fetch_collection_products`);
* `src/airtable_client.py` — record-store write helpers (`log_price_check`,
  `update_product`);
* `src/main.py`      — the check workflow (`check_product`, `main`);
* `src/sync_products.py` — the catalog sync workflow (`sync`).

Prices are Python floats in the source; every price the claims touch is only
compared (`<`, `=`) or copied, so they are modelled as rationals (`Rat`).
Network calls are modelled as function parameters (oracles) giving the
document a URL or handle resolves to; timestamps are opaque strings supplied
as parameters (the Python helpers default them to `datetime.now`).
-/

namespace FeastItaly

/-- A value stored in a record-store field map (the `fields` dict of an
Airtable record). -/
inductive FieldVal where
  | str (s : String)
  | num (q : Rat)
  | bool (b : Bool)
  | link (ids : List String)
deriving DecidableEq, Repr

/-- The fields of a Products-table record that `check_product` reads:
`fields.get("Name")`, `fields.get("Shopify Handle")`,
`fields.get("Current Price")`, and the `Monitor` checkbox that selects
monitored products.  A `.get` on a dict yields `None` when the key is
absent, hence the `Option` types; an Airtable checkbox reads as a boolean
(absent ⇒ false), hence `Bool`. -/
structure RecordFields where
  name : Option String
  shopifyHandle : Option String
  currentPrice : Option Rat
  monitor : Bool
deriving DecidableEq, Repr

/-- An Airtable record as `main.py` sees it: `record["id"]` and
`record["fields"]`. -/
structure AirRecord where
  id : String
  fields : RecordFields
deriving DecidableEq, Repr

/-- Error kinds `fetch_price` / `fetch_collection_products` can raise, per
the `fetch_price` docstring and the raw operations used:
`requests.HTTPError` on transport/HTTP failure (the spec's
`SourceUnavailable`), `KeyError` when an expected key is absent (the spec's
`MalformedDocument`), and `IndexError` from the unguarded
`p["variants"][0]` on an empty variants list — a kind outside the
documented taxonomy. -/
inductive FetchErr where
  | httpError
  | keyError
  | indexError
deriving DecidableEq, Repr

/-- A variant object inside a Shopify product document, with the fields the
source reads: `variant["price"]` (required), `variant.get("compare_at_price")`,
`variant.get("price_currency")`, `variant.get("inventory_quantity")`.
Optional fields are absent (`none`) when the document omits the key. -/
structure SrcVariant where
  price : Rat
  compareAtPrice : Option Rat
  priceCurrency : Option String
  inventoryQuantity : Option Int
deriving DecidableEq, Repr

/-- The image object of a product document: `product["image"].get("src")`. -/
structure SrcImage where
  src : Option String
deriving DecidableEq, Repr

/-- A Shopify product document as fetched by `fetch_price` from
`/products/<handle>.json` (the `data["product"]` object). -/
structure SrcProduct where
  title : String
  handle : String
  variants : List SrcVariant
  image : Option SrcImage
deriving DecidableEq, Repr

/-- `ProductPrice` from `src/scraper.py`: parsed price data. -/
structure ProductPrice where
  title : String
  handle : String
  price : Rat
  compareAtPrice : Option Rat
  currency : String
  available : Bool
  inventoryQuantity : Int
  imageUrl : Option String
deriving DecidableEq, Repr

/-- The image-URL computation in `fetch_price`:
`if product.get("image") and product["image"].get("src")`.  An absent image
object, an absent `src` key, or an empty (falsy) `src` string all leave
`image_url = None`. -/
def imageOf (image : Option SrcImage) : Option String :=
  match image with
  | none => none
  | some img =>
    match img.src with
    | none => none
    | some s => if s.isEmpty then none else some s

/-- The document-parsing part of `fetch_price` (`src/scraper.py`, lines
103–126), applied to a successfully fetched product document:
`variant = product["variants"][0]` (an `IndexError` when the list is
empty), currency defaulting to `"GBP"`, availability derived as
`variant.get("inventory_quantity", 0) > 0`. -/
def fetchPriceDoc (product : SrcProduct) : Except FetchErr ProductPrice :=
  match product.variants.head? with
  | none => .error .indexError
  | some variant =>
    .ok { title := product.title
          handle := product.handle
          price := variant.price
          compareAtPrice := variant.compareAtPrice
          currency := variant.priceCurrency.getD "GBP"
          available := decide (0 < variant.inventoryQuantity.getD 0)
          inventoryQuantity := variant.inventoryQuantity.getD 0
          imageUrl := imageOf product.image }

/-- The row written by `log_price_check` (`src/airtable_client.py`, lines
75–86): `Product`, `Price`, `Checked At`, `Price Dropped`, and
`Previous Price` added only when `previous_price is not None`. -/
def logPriceCheckFields (productRecordId : String) (price : Rat)
    (previousPrice : Option Rat) (priceDropped : Bool) (checkedAt : String) :
    List (String × FieldVal) :=
  let fields : List (String × FieldVal) :=
    [("Product", .link [productRecordId]),
     ("Price", .num price),
     ("Checked At", .str checkedAt),
     ("Price Dropped", .bool priceDropped)]
  match previousPrice with
  | none => fields
  | some pp => fields ++ [("Previous Price", .num pp)]

/-- The row written by `update_product` (`src/airtable_client.py`, lines
39–45): `Current Price` and `Last Checked`. -/
def updateProductFields (price : Rat) (checkedAt : String) :
    List (String × FieldVal) :=
  [("Current Price", .num price), ("Last Checked", .str checkedAt)]

/-- A record-store write performed by the check workflow: a Price History
row creation (`log_price_check`) or a Products-row update
(`update_product`). -/
inductive Effect where
  | createHistoryRow (rowFields : List (String × FieldVal))
  | updateProductRow (recordId : String) (rowFields : List (String × FieldVal))
deriving DecidableEq, Repr

/-- The check-outcome classification of `check_product`'s branches:
`PRICE DROP detected` / `First check recorded` / `No price change`. -/
inductive Classification where
  | dropDetected
  | firstCheckRecorded
  | noChange
deriving DecidableEq, Repr

/-- What one invocation of `check_product` did (when no exception
escaped): skipped the product, or completed a check with a
classification. -/
inductive CheckOutcome where
  | skipped
  | completed (classification : Classification)
deriving DecidableEq, Repr

/-- `price_dropped` from `src/main.py`, lines 56–58:
`previous_price is not None and current_price < previous_price`. -/
def priceDropped (currentPrice : Rat) (previousPrice : Option Rat) : Bool :=
  match previousPrice with
  | none => false
  | some pp => decide (currentPrice < pp)

/-- The classification implied by `check_product`'s branch structure
(`src/main.py`, lines 60–68): drop when `price_dropped`, first check when
`previous_price is None`, otherwise no change. -/
def classifyCheck (currentPrice : Rat) (previousPrice : Option Rat) :
    Classification :=
  if priceDropped currentPrice previousPrice then .dropDetected
  else
    match previousPrice with
    | none => .firstCheckRecorded
    | some _ => .noChange

/-- `check_product` from `src/main.py` (lines 27–80).  `fetch` is the
price-source oracle for `fetch_price` (its exceptions propagate, as in the
source, where `check_product` catches nothing); `histTime` and `updTime`
are the timestamps `log_price_check` and `update_product` default to `now`.
A falsy handle (`None` or the empty string: Python `if not handle`) skips
the product with no fetch and no writes.  On success the two store writes
are returned in program order: history append first, product update
second. -/
def checkProduct (fetch : String → Except FetchErr ProductPrice)
    (histTime updTime : String) (record : AirRecord) :
    Except FetchErr (CheckOutcome × List Effect) :=
  let fields := record.fields
  let previousPrice := fields.currentPrice
  match fields.shopifyHandle with
  | none => .ok (.skipped, [])
  | some h =>
    if h.isEmpty then .ok (.skipped, [])
    else
      match fetch h with
      | .error e => .error e
      | .ok priceData =>
        let currentPrice := priceData.price
        let dropped := priceDropped currentPrice previousPrice
        .ok (.completed (classifyCheck currentPrice previousPrice),
             [.createHistoryRow
                (logPriceCheckFields record.id currentPrice previousPrice
                  dropped histTime),
              .updateProductRow record.id
                (updateProductFields currentPrice updTime)])

/-- `CollectionProduct` from `src/scraper.py`: basic product info from a
collection listing. -/
structure CollectionProduct where
  title : String
  handle : String
  vendor : String
  productType : String
  price : Rat
  compareAtPrice : Option Rat
  currency : String
  url : String
deriving DecidableEq, Repr

/-- A product object inside a collection listing page, with the fields
`fetch_collection_products` reads: `p["title"]`, `p["handle"]`,
`p.get("vendor", "")`, `p.get("product_type", "")`, `p["variants"]`. -/
structure SrcColProduct where
  title : String
  handle : String
  vendor : Option String
  productType : Option String
  variants : List SrcVariant
deriving DecidableEq, Repr

/-- The listing-page request URL built by `fetch_collection_products`
(`src/scraper.py`, line 59); the source hardcodes `limit=50`, passed here
explicitly so the fixed page size is visible at the call site. -/
def requestUrl (domain collectionHandle : String) (limit page : Nat) :
    String :=
  "https://" ++ domain ++ "/collections/" ++ collectionHandle ++
    "/products.json?limit=" ++ toString limit ++ "&page=" ++ toString page

/-- Conversion of one listing item into a `CollectionProduct`
(`src/scraper.py`, lines 67–79): `variant = p["variants"][0]` raises an
`IndexError` on an empty variants list; vendor and product type default to
`""`, currency to `"GBP"`. -/
def convertColProduct (domain : String) (p : SrcColProduct) :
    Except FetchErr CollectionProduct :=
  match p.variants.head? with
  | none => .error .indexError
  | some variant =>
    .ok { title := p.title
          handle := p.handle
          vendor := p.vendor.getD ""
          productType := p.productType.getD ""
          price := variant.price
          compareAtPrice := variant.compareAtPrice
          currency := variant.priceCurrency.getD "GBP"
          url := "https://" ++ domain ++ "/products/" ++ p.handle }

/-- The inner `for p in batch` loop of `fetch_collection_products`:
converts the items of one page in order; the first `IndexError`
propagates out, as the Python exception does. -/
def convertBatch (domain : String) :
    List SrcColProduct → Except FetchErr (List CollectionProduct)
  | [] => .ok []
  | p :: rest =>
    match convertColProduct domain p with
    | .error e => .error e
    | .ok c =>
      match convertBatch domain rest with
      | .error e => .error e
      | .ok cs => .ok (c :: cs)

/-- The `while True` pagination loop of `fetch_collection_products`
(`src/scraper.py`, lines 54–82).  `pages` is the network oracle mapping a
request URL to the (successfully fetched) page's `products` array.  The
loop requests `limit=50` pages starting at page 1 and stops at the first
empty page; `fuel` bounds the unbounded Python loop, `none` meaning the
fuel ran out before an empty page was seen. -/
def fetchCollectionLoop (domain collectionHandle : String)
    (pages : String → List SrcColProduct) :
    Nat → Nat → List CollectionProduct →
      Option (Except FetchErr (List CollectionProduct))
  | 0, _, _ => none
  | fuel + 1, page, acc =>
    let batch := pages (requestUrl domain collectionHandle 50 page)
    if batch.isEmpty then some (.ok acc)
    else
      match convertBatch domain batch with
      | .error e => some (.error e)
      | .ok cs => fetchCollectionLoop domain collectionHandle pages fuel
          (page + 1) (acc ++ cs)

/-- `fetch_collection_products` from `src/scraper.py` (lines 41–84):
starts at page 1 with an empty accumulator. -/
def fetchCollectionProducts (domain collectionHandle : String)
    (pages : String → List SrcColProduct) (fuel : Nat) :
    Option (Except FetchErr (List CollectionProduct)) :=
  fetchCollectionLoop domain collectionHandle pages fuel 1 []

/-- Modelled from the spec: `get_monitored_products` is imported by
`src/main.py` from `airtable_client`, but `src/airtable_client.py` does not
define it (it only defines `get_all_products`).  Spec §4.2,
`list_monitored`: "all products with the monitor flag set; empty sequence
when none". -/
def getMonitoredProducts (store : List AirRecord) : List AirRecord :=
  store.filter (fun r => r.fields.monitor)

/-- Whether a per-product run raised (the `except Exception` arm of
`main`'s loop). -/
def isFailure {ε α : Type} : Except ε α → Bool
  | .error _ => true
  | .ok _ => false

/-- Result of one `main` invocation: the products attempted by the loop in
order, the error tally, and the process exit code (`sys.exit(1)` when any
errors, otherwise a normal exit, i.e. 0). -/
structure MainResult where
  attempts : List AirRecord
  errors : Nat
  exitCode : Nat
deriving DecidableEq, Repr

/-- The `for record in products` loop of `main` (`src/main.py`, lines
95–101): each product is attempted; a raise from `check_product` is caught,
counted, and the loop continues with the next product.  Returns the
attempted records in order together with the error count. -/
def runLoop {ε : Type} (check1 : AirRecord → Except ε Unit) :
    List AirRecord → List AirRecord × Nat
  | [] => ([], 0)
  | r :: rest =>
    let e := if isFailure (check1 r) then 1 else 0
    let (att, errs) := runLoop check1 rest
    (r :: att, e + errs)

/-- `main` from `src/main.py` (lines 83–106): list the monitored products,
return immediately when there are none, otherwise attempt each product,
count errors, and exit non-zero iff any errored.  `check1` is the
per-product body (`check_product` composed with its environment); the
`try`/`except Exception` catches any error kind, so the body is an
arbitrary fallible function. -/
def mainRun {ε : Type} (store : List AirRecord)
    (check1 : AirRecord → Except ε Unit) : MainResult :=
  let products := getMonitoredProducts store
  if products.isEmpty then ⟨[], 0, 0⟩
  else
    let (att, errs) := runLoop check1 products
    ⟨att, errs, if 0 < errs then 1 else 0⟩

/-- `check_product` as `main`'s loop body sees it: the outcome and effects
are discarded, only normal-return versus raise matters. -/
def checkProductUnit (fetch : String → Except FetchErr ProductPrice)
    (histTime updTime : String) (record : AirRecord) :
    Except FetchErr Unit :=
  match checkProduct fetch histTime updTime record with
  | .error e => .error e
  | .ok _ => .ok ()

/-- A Products-table row as the record store holds it for the sync
workflow: the fields `upsert_product` is called with, plus the monitor
flag (off on creation per the spec) and the store-assigned record id. -/
structure StoredProduct where
  id : String
  name : String
  shopifyHandle : String
  url : String
  price : Rat
  vendor : String
  monitor : Bool
deriving DecidableEq, Repr

/-- Modelled from the spec: `upsert_product` is imported by
`src/sync_products.py` from `airtable_client`, but `src/airtable_client.py`
does not define it.  Spec §4.2, `upsert_by_handle`: "if a Product with this
handle exists, it is returned unmodified (created=false); otherwise a new
Product is created with monitor flag off and the given fields
(created=true)".  Lookup is by natural key, first match wins (as in
`get_product_by_handle`).  Returns the updated store, the returned Product
record, and the created flag. -/
def upsertProduct (store : List StoredProduct) (name handle url : String)
    (price : Rat) (vendor : String) (newId : String) :
    List StoredProduct × StoredProduct × Bool :=
  match store.find? (fun r => r.shopifyHandle == handle) with
  | some r => (store, r, false)
  | none =>
    let r : StoredProduct :=
      { id := newId, name := name, shopifyHandle := handle, url := url,
        price := price, vendor := vendor, monitor := false }
    (store ++ [r], r, true)

/-- The `for p in products` loop of `sync` (`src/sync_products.py`, lines
40–59): upsert each listing entry, then classify it by the handle carried
by the returned record — `existing_handle = result.get("fields",
\x7b\x7d).get("Shopify Handle", "")`; when it equals `p.handle` the item
counts as already existing (`skipped`), otherwise as `added`.  Fresh record
ids are numbered from `freshId`.  Returns the final store and the
(`added`, `skipped`) tallies. -/
def syncLoop (store : List StoredProduct) (freshId : Nat) :
    List CollectionProduct → List StoredProduct × Nat × Nat
  | [] => (store, 0, 0)
  | p :: rest =>
    let (store2, row, _created) :=
      upsertProduct store p.title p.handle p.url p.price p.vendor
        ("rec" ++ toString freshId)
    let isExisting := row.shopifyHandle == p.handle
    let (store3, added, skipped) := syncLoop store2 (freshId + 1) rest
    (store3,
     (if isExisting then 0 else 1) + added,
     (if isExisting then 1 else 0) + skipped)

/-- `sync` from `src/sync_products.py` (lines 28–59), applied to an
already-fetched listing: the reported (`added`, `skipped`) tallies. -/
def sync (store : List StoredProduct) (items : List CollectionProduct) :
    Nat × Nat :=
  (syncLoop store 0 items).2

/-! Concrete sample inputs used to exercise the embedded operations. -/

/-- A parsed price document whose price is `q`. -/
def samplePrice (q : Rat) : ProductPrice :=
  { title := "Acacia Honey", handle := "acacia", price := q,
    compareAtPrice := none, currency := "GBP", available := true,
    inventoryQuantity := 3, imageUrl := none }

/-- A price-source oracle answering every handle with `samplePrice q`. -/
def sampleFetch (q : Rat) : String → Except FetchErr ProductPrice :=
  fun _ => .ok (samplePrice q)

/-- A monitored Products record with handle `"acacia"` and the given
recorded prior price. -/
def sampleRecord (prior : Option Rat) : AirRecord :=
  { id := "recA",
    fields := { name := some "Acacia Honey", shopifyHandle := some "acacia",
                currentPrice := prior, monitor := true } }

/-- A monitored Products record with no Shopify Handle field. -/
def noHandleRecord : AirRecord :=
  { id := "recB",
    fields := { name := some "No Handle", shopifyHandle := none,
                currentPrice := some 5, monitor := true } }

/-- A collection listing item with a single variant priced 2. -/
def colItem : SrcColProduct :=
  { title := "Item", handle := "item", vendor := none, productType := none,
    variants := [{ price := 2, compareAtPrice := none, priceCurrency := none,
                   inventoryQuantity := some 1 }] }

/-- `colItem` converted the way `fetch_collection_products` converts it. -/
def colItemConv : CollectionProduct :=
  { title := "Item", handle := "item", vendor := "", productType := "",
    price := 2, compareAtPrice := none, currency := "GBP",
    url := "https://feastitaly.com/products/item" }

/-- A page-1 batch of 50 identical items. -/
def pageOneBatch : List SrcColProduct := List.replicate 50 colItem

/-- A listing source serving 50 items on page 1 and nothing afterwards. -/
def samplePages : String → List SrcColProduct :=
  fun url =>
    if url = requestUrl "feastitaly.com" "short-dated-but-delicious" 50 1
    then pageOneBatch else []

/-- A well-formed single-product document whose variants list is empty. -/
def emptyVariantsDoc : SrcProduct :=
  { title := "Empty", handle := "empty", variants := [], image := none }

/-- A well-formed listing item whose variants list is empty. -/
def emptyVariantsItem : SrcColProduct :=
  { title := "Empty", handle := "empty", vendor := none, productType := none,
    variants := [] }

/-- A listing source whose page 1 holds only `emptyVariantsItem`. -/
def emptyVariantsPages : String → List SrcColProduct :=
  fun url =>
    if url = requestUrl "feastitaly.com" "col" 50 1
    then [emptyVariantsItem] else []

/-- A Products row already in the record store, with handle `"A"`. -/
def storedProductA : StoredProduct :=
  { id := "rec0", name := "Prod A", shopifyHandle := "A",
    url := "https://feastitaly.com/products/A", price := 10, vendor := "V",
    monitor := false }

/-- Listing entry with handle `"A"` (already in the store). -/
def listingItemA : CollectionProduct :=
  { title := "Prod A", handle := "A", vendor := "V", productType := "",
    price := 10, compareAtPrice := none, currency := "GBP",
    url := "https://feastitaly.com/products/A" }

/-- Listing entry with handle `"B"` (not in the store). -/
def listingItemB : CollectionProduct :=
  { title := "Prod B", handle := "B", vendor := "V", productType := "",
    price := 7, compareAtPrice := none, currency := "GBP",
    url := "https://feastitaly.com/products/B" }

/-! Helper lemmas shared by the claim theorems. -/

/-- The loop of `main` attempts every record in order and counts exactly
the raising ones. -/
theorem runLoop_eq {ε : Type} (check1 : AirRecord → Except ε Unit)
    (l : List AirRecord) :
    runLoop check1 l = (l, l.countP (fun r => isFailure (check1 r))) := by
  induction l with
  | nil => simp [runLoop]
  | cons r rest ih =>
    simp [runLoop, ih, List.countP_cons]
    by_cases h : isFailure (check1 r) = true
    · simp [h]
      omega
    · simp [h]

/-- `mainRun` in closed form: attempts are the monitored products, errors
count the raising attempts, and the exit code is 1 exactly when some
attempt raised. -/
theorem mainRun_eq {ε : Type} (store : List AirRecord)
    (check1 : AirRecord → Except ε Unit) :
    mainRun store check1 =
      ⟨getMonitoredProducts store,
       (getMonitoredProducts store).countP (fun r => isFailure (check1 r)),
       if 0 < (getMonitoredProducts store).countP
           (fun r => isFailure (check1 r)) then 1 else 0⟩ := by
  unfold mainRun
  by_cases h : (getMonitoredProducts store).isEmpty = true
  · rw [List.isEmpty_iff] at h
    simp [h]
  · simp [h, runLoop_eq]

/-- `convertBatch` preserves the item count when it succeeds. -/
theorem convertBatch_length (domain : String) (l : List SrcColProduct)
    (cs : List CollectionProduct) (h : convertBatch domain l = .ok cs) :
    cs.length = l.length := by
  induction l generalizing cs with
  | nil =>
    simp only [convertBatch] at h
    cases h
    rfl
  | cons p rest ih =>
    simp only [convertBatch] at h
    cases hc : convertColProduct domain p with
    | error e => rw [hc] at h; cases h
    | ok c =>
      rw [hc] at h
      cases hr : convertBatch domain rest with
      | error e => rw [hr] at h; cases h
      | ok cs2 =>
        rw [hr] at h
        cases h
        simp [ih cs2 hr]

/-- Claim C1: for every check of a product whose recorded prior price is
present, the check is classified `DROP_DETECTED` iff the freshly fetched
price is strictly below the prior price; when the fetched price equals or
exceeds the prior price the classification is `NO_CHANGE`; and the history
row's `Price Dropped` flag equals this classification. -/
theorem checkProduct_drop_iff_below_prior
    (fetch : String → Except FetchErr ProductPrice)
    (histTime updTime : String) (record : AirRecord) (h : String) (pp : Rat)
    (pd : ProductPrice)
    (hh : record.fields.shopifyHandle = some h) (hne : h.isEmpty = false)
    (hprior : record.fields.currentPrice = some pp)
    (hfetch : fetch h = .ok pd) :
    checkProduct fetch histTime updTime record =
      .ok (.completed
            (if pd.price < pp then .dropDetected else .noChange),
        [.createHistoryRow
            (logPriceCheckFields record.id pd.price (some pp)
              (decide (pd.price < pp)) histTime),
         .updateProductRow record.id
            (updateProductFields pd.price updTime)]) ∧
    ((if pd.price < pp then Classification.dropDetected else .noChange) =
        .dropDetected ↔ pd.price < pp) ∧
    (pp ≤ pd.price →
      (if pd.price < pp then Classification.dropDetected else .noChange) =
        .noChange) ∧
    (decide (pd.price < pp) = true ↔
      (if pd.price < pp then Classification.dropDetected else .noChange) =
        .dropDetected) := by
  constructor
  · simp only [checkProduct, hh, hne, hprior, hfetch, Bool.false_eq_true,
      if_false, priceDropped, classifyCheck]
    by_cases hlt : pd.price < pp <;> simp [hlt]
  · refine ⟨?_, ?_, ?_⟩
    · by_cases hlt : pd.price < pp <;> simp [hlt]
    · intro hle
      have : ¬ pd.price < pp := not_lt.mpr hle
      simp [this]
    · by_cases hlt : pd.price < pp <;> simp [hlt]

/-- Witness for C1 at a concrete drop: prior price 10, fetched price 8. -/
theorem checkProduct_drop_iff_below_prior_witness :
    checkProduct (sampleFetch 8) "t" "u" (sampleRecord (some 10)) =
      .ok (.completed
            (if (8 : Rat) < 10 then .dropDetected else .noChange),
        [.createHistoryRow
            (logPriceCheckFields "recA" 8 (some 10)
              (decide ((8 : Rat) < 10)) "t"),
         .updateProductRow "recA" (updateProductFields 8 "u")]) ∧
    ((if (8 : Rat) < 10 then Classification.dropDetected else .noChange) =
        .dropDetected ↔ (8 : Rat) < 10) ∧
    ((10 : Rat) ≤ 8 →
      (if (8 : Rat) < 10 then Classification.dropDetected else .noChange) =
        .noChange) ∧
    (decide ((8 : Rat) < 10) = true ↔
      (if (8 : Rat) < 10 then Classification.dropDetected else .noChange) =
        .dropDetected) :=
  checkProduct_drop_iff_below_prior (sampleFetch 8) "t" "u"
    (sampleRecord (some 10)) "acacia" 10 (samplePrice 8) rfl rfl rfl rfl

/-- Claim C2: for every check of a product with no recorded prior price,
regardless of the fetched value, the classification is
`FIRST_CHECK_RECORDED` with drop flag `false`, and the written history row
omits the `Previous Price` key entirely — while a present prior price
(zero included) always writes that key, so a first check is
distinguishable from a prior price of zero. -/
theorem checkProduct_first_check
    (fetch : String → Except FetchErr ProductPrice)
    (histTime updTime : String) (record : AirRecord) (h : String)
    (pd : ProductPrice)
    (hh : record.fields.shopifyHandle = some h) (hne : h.isEmpty = false)
    (hprior : record.fields.currentPrice = none)
    (hfetch : fetch h = .ok pd) :
    checkProduct fetch histTime updTime record =
      .ok (.completed .firstCheckRecorded,
        [.createHistoryRow
            (logPriceCheckFields record.id pd.price none false histTime),
         .updateProductRow record.id
            (updateProductFields pd.price updTime)]) ∧
    "Previous Price" ∉
      (logPriceCheckFields record.id pd.price none false histTime).map
        Prod.fst ∧
    (∀ (q : Rat) (flag : Bool) (t : String),
      "Previous Price" ∈
        (logPriceCheckFields record.id pd.price (some q) flag t).map
          Prod.fst) := by
  refine ⟨?_, ?_, ?_⟩
  · simp [checkProduct, hh, hne, hprior, hfetch, priceDropped, classifyCheck]
  · simp [logPriceCheckFields]
  · intro q flag t
    simp [logPriceCheckFields]

/-- Witness for C2: no prior price, fetched price 12. -/
theorem checkProduct_first_check_witness :
    checkProduct (sampleFetch 12) "t" "u" (sampleRecord none) =
      .ok (.completed .firstCheckRecorded,
        [.createHistoryRow (logPriceCheckFields "recA" 12 none false "t"),
         .updateProductRow "recA" (updateProductFields 12 "u")]) ∧
    "Previous Price" ∉
      (logPriceCheckFields "recA" 12 none false "t").map Prod.fst ∧
    (∀ (q : Rat) (flag : Bool) (t : String),
      "Previous Price" ∈
        (logPriceCheckFields "recA" 12 (some q) flag t).map Prod.fst) :=
  checkProduct_first_check (sampleFetch 12) "t" "u" (sampleRecord none)
    "acacia" (samplePrice 12) rfl rfl rfl rfl

/-- Claim C6: for every successful check, the Price History row creation
comes strictly before the Products-row update in the write sequence of
`check_product` — the effect list is exactly `[history append, product
update]`, so its one-element stop (a failure between the two writes)
holds the history append and not yet the current-state update. -/
theorem checkProduct_history_before_update
    (fetch : String → Except FetchErr ProductPrice)
    (histTime updTime : String) (record : AirRecord) (h : String)
    (pd : ProductPrice)
    (hh : record.fields.shopifyHandle = some h) (hne : h.isEmpty = false)
    (hfetch : fetch h = .ok pd) :
    checkProduct fetch histTime updTime record =
      .ok (.completed (classifyCheck pd.price record.fields.currentPrice),
        [.createHistoryRow
            (logPriceCheckFields record.id pd.price
              record.fields.currentPrice
              (priceDropped pd.price record.fields.currentPrice) histTime),
         .updateProductRow record.id
            (updateProductFields pd.price updTime)]) ∧
    List.take 1
        [Effect.createHistoryRow
            (logPriceCheckFields record.id pd.price
              record.fields.currentPrice
              (priceDropped pd.price record.fields.currentPrice) histTime),
         Effect.updateProductRow record.id
            (updateProductFields pd.price updTime)] =
      [Effect.createHistoryRow
          (logPriceCheckFields record.id pd.price record.fields.currentPrice
            (priceDropped pd.price record.fields.currentPrice) histTime)] := by
  refine ⟨?_, rfl⟩
  simp [checkProduct, hh, hne, hfetch]

/-- Witness for C6: prior price 10, fetched price 8. -/
theorem checkProduct_history_before_update_witness :
    checkProduct (sampleFetch 8) "t" "u" (sampleRecord (some 10)) =
      .ok (.completed (classifyCheck 8 (some 10)),
        [.createHistoryRow
            (logPriceCheckFields "recA" 8 (some 10)
              (priceDropped 8 (some 10)) "t"),
         .updateProductRow "recA" (updateProductFields 8 "u")]) ∧
    List.take 1
        [Effect.createHistoryRow
            (logPriceCheckFields "recA" 8 (some 10)
              (priceDropped 8 (some 10)) "t"),
         Effect.updateProductRow "recA" (updateProductFields 8 "u")] =
      [Effect.createHistoryRow
          (logPriceCheckFields "recA" 8 (some 10)
            (priceDropped 8 (some 10)) "t")] :=
  checkProduct_history_before_update (sampleFetch 8) "t" "u"
    (sampleRecord (some 10)) "acacia" (samplePrice 8) rfl rfl rfl

/-- Claim C4: for every state of the record store, the sequence of
products the entry point drives the per-product check over is exactly the
products with the monitor flag set, in store order — empty when none have
it.  (`get_monitored_products` is absent from `src/airtable_client.py`;
`getMonitoredProducts` is modelled from the spec's `list_monitored`
contract.) -/
theorem mainRun_processes_exactly_monitored {ε : Type}
    (store : List AirRecord) (check1 : AirRecord → Except ε Unit) :
    (mainRun store check1).attempts =
      store.filter (fun r => r.fields.monitor) ∧
    (∀ r : AirRecord, r ∈ (mainRun store check1).attempts ↔
      r ∈ store ∧ r.fields.monitor = true) := by
  rw [mainRun_eq]
  refine ⟨rfl, fun r => ?_⟩
  simp [getMonitoredProducts, List.mem_filter]

/-- Witness for C4 at a concrete store with one monitored and one
unmonitored record. -/
theorem mainRun_processes_exactly_monitored_witness :
    (mainRun [sampleRecord (some 10),
        { id := "recC",
          fields := { name := none, shopifyHandle := none,
                      currentPrice := none, monitor := false } }]
        (checkProductUnit (sampleFetch 8) "t" "u")).attempts =
      [sampleRecord (some 10),
        { id := "recC",
          fields := { name := none, shopifyHandle := none,
                      currentPrice := none, monitor := false } }].filter
        (fun r => r.fields.monitor) ∧
    (∀ r : AirRecord,
      r ∈ (mainRun [sampleRecord (some 10),
          { id := "recC",
            fields := { name := none, shopifyHandle := none,
                        currentPrice := none, monitor := false } }]
          (checkProductUnit (sampleFetch 8) "t" "u")).attempts ↔
        r ∈ [sampleRecord (some 10),
          { id := "recC",
            fields := { name := none, shopifyHandle := none,
                        currentPrice := none, monitor := false } }] ∧
        r.fields.monitor = true) :=
  mainRun_processes_exactly_monitored _ _

/-- Claim C5: for every batch of monitored products and every per-product
behaviour (any raise — fetch error or store error — is caught by the
loop), every product is attempted in order, failures are counted, and the
exit code is non-zero iff at least one product failed; the exit decision
is taken on the tally of the completed loop, after all attempts. -/
theorem mainRun_failure_isolation {ε : Type} (store : List AirRecord)
    (check1 : AirRecord → Except ε Unit) :
    (mainRun store check1).attempts = getMonitoredProducts store ∧
    (mainRun store check1).errors =
      (getMonitoredProducts store).countP
        (fun r => isFailure (check1 r)) ∧
    ((mainRun store check1).exitCode ≠ 0 ↔
      0 < (mainRun store check1).errors) := by
  rw [mainRun_eq]
  refine ⟨rfl, rfl, ?_⟩
  by_cases h : 0 < (getMonitoredProducts store).countP
      (fun r => isFailure (check1 r)) <;> simp [h]

/-- Witness for C5 at a concrete two-product batch where the first
product's fetch fails and the second succeeds. -/
theorem mainRun_failure_isolation_witness :
    (mainRun [sampleRecord (some 10), noHandleRecord]
        (fun r => if r.id = "recA"
          then Except.error FetchErr.httpError else Except.ok ())).attempts =
      getMonitoredProducts [sampleRecord (some 10), noHandleRecord] ∧
    (mainRun [sampleRecord (some 10), noHandleRecord]
        (fun r => if r.id = "recA"
          then Except.error FetchErr.httpError else Except.ok ())).errors =
      (getMonitoredProducts [sampleRecord (some 10), noHandleRecord]).countP
        (fun r => isFailure (if r.id = "recA"
          then Except.error FetchErr.httpError else Except.ok ())) ∧
    ((mainRun [sampleRecord (some 10), noHandleRecord]
        (fun r => if r.id = "recA"
          then Except.error FetchErr.httpError
          else Except.ok ())).exitCode ≠ 0 ↔
      0 < (mainRun [sampleRecord (some 10), noHandleRecord]
        (fun r => if r.id = "recA"
          then Except.error FetchErr.httpError
          else Except.ok ())).errors) :=
  mainRun_failure_isolation _ _

/-- Claim C7: a monitored product whose handle is absent or empty is
skipped — the check performs no fetch and emits no writes and returns
normally — and a run whose products all lack a usable handle counts zero
errors and exits with status 0. -/
theorem checkProduct_skips_handleless (store : List AirRecord)
    (fetch : String → Except FetchErr ProductPrice)
    (histTime updTime : String)
    (hall : ∀ r ∈ store, r.fields.shopifyHandle.getD "" = "") :
    (∀ r ∈ store,
      checkProduct fetch histTime updTime r = .ok (.skipped, [])) ∧
    (mainRun store (checkProductUnit fetch histTime updTime)).errors = 0 ∧
    (mainRun store (checkProductUnit fetch histTime updTime)).exitCode
      = 0 := by
  have hskip : ∀ r ∈ store,
      checkProduct fetch histTime updTime r = .ok (.skipped, []) := by
    intro r hr
    have := hall r hr
    cases hs : r.fields.shopifyHandle with
    | none => simp [checkProduct, hs]
    | some s =>
      rw [hs] at this
      simp only [Option.getD_some] at this
      subst this
      simp only [checkProduct, hs]
      rw [if_pos (show "".isEmpty = true from rfl)]
  refine ⟨hskip, ?_⟩
  rw [mainRun_eq]
  have hcount : (getMonitoredProducts store).countP
      (fun r => isFailure (checkProductUnit fetch histTime updTime r))
        = 0 := by
    rw [List.countP_eq_zero]
    intro r hr
    have hr2 : r ∈ store := by
      unfold getMonitoredProducts at hr
      exact (List.mem_filter.mp hr).1
    rw [checkProductUnit, hskip r hr2]
    simp [isFailure]
  simp [hcount]

/-- Witness for C7: a batch holding one record with a missing handle and
one with an empty handle. -/
theorem checkProduct_skips_handleless_witness :
    ((∀ r ∈ [noHandleRecord,
        { id := "recD",
          fields := { name := none, shopifyHandle := some "",
                      currentPrice := none, monitor := true } }],
      checkProduct (sampleFetch 8) "t" "u" r = .ok (.skipped, [])) ∧
    (mainRun [noHandleRecord,
        { id := "recD",
          fields := { name := none, shopifyHandle := some "",
                      currentPrice := none, monitor := true } }]
        (checkProductUnit (sampleFetch 8) "t" "u")).errors = 0 ∧
    (mainRun [noHandleRecord,
        { id := "recD",
          fields := { name := none, shopifyHandle := some "",
                      currentPrice := none, monitor := true } }]
        (checkProductUnit (sampleFetch 8) "t" "u")).exitCode = 0) :=
  checkProduct_skips_handleless _ (sampleFetch 8) "t" "u" (by
    intro r hr
    rcases List.mem_cons.mp hr with h1 | h2
    · subst h1; rfl
    · rcases List.mem_cons.mp h2 with h3 | h4
      · subst h3; rfl
      · cases h4)

/-- Claim C8: the listing loop requests pages of fixed size 50, advancing
the page number from 1 until a page returns zero items, then terminates;
when page 1 returns 50 convertible items and page 2 returns none, the
result is exactly the in-order conversion of page 1, 50 items long.
(`convertBatch` converts a batch front-to-back, so `cs` preserves source
order.) -/
theorem fetchCollection_pagination_terminates
    (domain ch : String) (pages : String → List SrcColProduct)
    (b1 : List SrcColProduct) (cs : List CollectionProduct) (fuel : Nat)
    (hp1 : pages (requestUrl domain ch 50 1) = b1)
    (hp2 : pages (requestUrl domain ch 50 2) = [])
    (hlen : b1.length = 50)
    (hconv : convertBatch domain b1 = .ok cs)
    (hfuel : 2 ≤ fuel) :
    fetchCollectionProducts domain ch pages fuel = some (.ok cs) ∧
    cs.length = 50 := by
  refine ⟨?_, by rw [convertBatch_length domain b1 cs hconv, hlen]⟩
  obtain ⟨k, hk⟩ : ∃ k, fuel = k + 2 := ⟨fuel - 2, by omega⟩
  subst hk
  have hb1ne : b1.isEmpty = false := by
    cases b1 with
    | nil => simp at hlen
    | cons a l => rfl
  unfold fetchCollectionProducts
  unfold fetchCollectionLoop
  rw [hp1]
  simp only [hb1ne, Bool.false_eq_true, if_false, hconv, List.nil_append]
  unfold fetchCollectionLoop
  simp only [show (1 + 1 : Nat) = 2 from rfl]
  rw [hp2]
  simp

/-- Witness for C8: 50 copies of `colItem` on page 1, nothing on page 2. -/
theorem fetchCollection_pagination_terminates_witness :
    fetchCollectionProducts "feastitaly.com" "short-dated-but-delicious"
        samplePages 2 =
      some (.ok (List.replicate 50 colItemConv)) ∧
    (List.replicate 50 colItemConv).length = 50 :=
  fetchCollection_pagination_terminates "feastitaly.com"
    "short-dated-but-delicious" samplePages pageOneBatch
    (List.replicate 50 colItemConv) 2 (by rfl) (by rfl) (by rfl) (by rfl)
    (by omega)

/-- Claim C9: for every successfully parsed product document, the
availability flag of the returned price value is `true` iff the first
variant's inventory count is greater than 0, the count defaulting to 0 —
hence unavailable — when the document omits `inventory_quantity`. -/
theorem fetchPrice_available_iff_positive_inventory
    (doc : SrcProduct) (v : SrcVariant) (rest : List SrcVariant)
    (hv : doc.variants = v :: rest) :
    ∀ pp : ProductPrice, fetchPriceDoc doc = .ok pp →
      (pp.available = true ↔ 0 < v.inventoryQuantity.getD 0) ∧
      pp.inventoryQuantity = v.inventoryQuantity.getD 0 ∧
      (v.inventoryQuantity = none → pp.available = false) := by
  intro pp hpp
  have : fetchPriceDoc doc =
      .ok { title := doc.title, handle := doc.handle, price := v.price,
            compareAtPrice := v.compareAtPrice,
            currency := v.priceCurrency.getD "GBP",
            available := decide (0 < v.inventoryQuantity.getD 0),
            inventoryQuantity := v.inventoryQuantity.getD 0,
            imageUrl := imageOf doc.image } := by
    simp [fetchPriceDoc, hv]
  rw [this] at hpp
  cases hpp
  refine ⟨by simp, rfl, ?_⟩
  intro hnone
  simp [hnone]

/-- Witness for C9: a document whose only variant omits
`inventory_quantity` parses as unavailable with count 0. -/
theorem fetchPrice_available_iff_positive_inventory_witness :
    fetchPriceDoc
        { title := "Empty", handle := "empty",
          variants := [{ price := 2, compareAtPrice := none,
                         priceCurrency := none,
                         inventoryQuantity := none }],
          image := none } =
      .ok { title := "Empty", handle := "empty", price := 2,
            compareAtPrice := none, currency := "GBP", available := false,
            inventoryQuantity := 0, imageUrl := none } ∧
    (({ title := "Empty", handle := "empty", price := 2,
        compareAtPrice := none, currency := "GBP", available := false,
        inventoryQuantity := 0, imageUrl := none } :
          ProductPrice).available = true ↔
      0 < (Option.getD (α := Int) none 0)) ∧
    ({ title := "Empty", handle := "empty", price := 2,
       compareAtPrice := none, currency := "GBP", available := false,
       inventoryQuantity := 0, imageUrl := none } :
         ProductPrice).available = false :=
  ⟨rfl,
   (fetchPrice_available_iff_positive_inventory
      { title := "Empty", handle := "empty",
        variants := [{ price := 2, compareAtPrice := none,
                       priceCurrency := none, inventoryQuantity := none }],
        image := none }
      { price := 2, compareAtPrice := none, priceCurrency := none,
        inventoryQuantity := none }
      [] rfl _ rfl).1,
   (fetchPrice_available_iff_positive_inventory
      { title := "Empty", handle := "empty",
        variants := [{ price := 2, compareAtPrice := none,
                       priceCurrency := none, inventoryQuantity := none }],
        image := none }
      { price := 2, compareAtPrice := none, priceCurrency := none,
        inventoryQuantity := none }
      [] rfl _ rfl).2.2 rfl⟩

/-- Claim C10: on a well-formed product document whose variants list is
empty, both the single-item parse and the catalog listing hit the
unguarded first-variant selection and fail with an index error — an error
kind distinct from the documented `SourceUnavailable` (HTTP) and
`MalformedDocument` (missing-key) kinds — so the out-of-bounds branch of
the embedded first-variant selection is reachable. -/
theorem emptyVariants_index_error_reachable :
    fetchPriceDoc emptyVariantsDoc = .error .indexError ∧
    convertColProduct "feastitaly.com" emptyVariantsItem =
      .error .indexError ∧
    fetchCollectionProducts "feastitaly.com" "col" emptyVariantsPages 2 =
      some (.error .indexError) ∧
    FetchErr.indexError ≠ FetchErr.httpError ∧
    FetchErr.indexError ≠ FetchErr.keyError :=
  ⟨rfl, rfl, rfl, by decide, by decide⟩

/-- Claim C3 (counter-evaluation): the spec-modelled `upsert_product` does
report `created = true` for the new handle `"B"`, yet `sync` over the
listing `[A, B]` against a store already holding `A` reports 0 added and
2 existing — not 1 and 1 — because the record returned for a freshly
created product also carries the product's handle, so the loop's
`existing_handle == p.handle` test classifies it as existing. -/
theorem sync_misclassifies_created_as_existing :
    (upsertProduct [storedProductA] "Prod B" "B"
        "https://feastitaly.com/products/B" 7 "V" "rec1").2.2 = true ∧
    sync [storedProductA] [listingItemA, listingItemB] = (0, 2) ∧
    sync [storedProductA] [listingItemA, listingItemB] ≠ (1, 1) := by
  refine ⟨rfl, rfl, by decide⟩

end FeastItaly
